import Mathlib

/-!
Shallow embedding of the alertacall-data-monitor repository
(monitors/pipeline_health.py, monitors/checkin.py, monitors/daily_summary.py,
alerts/google_chat_alerts.py).

The database query of each `check_pipeline_health` is treated as an opaque
collaborator: its result row (or its absence) is an explicit argument.
Machine integers are modelled by `Int`/`Nat` (Python ints are unbounded, so no
wrap-around is needed).  The Python status strings 'OK'/'WARNING'/'CRITICAL'
become the inductive `Status`; all other strings built by the code are kept as
Lean `String`s, byte for byte.
-/

namespace Alertacall

/-- The three pipeline statuses used across all three monitor scripts. -/
inductive Status where
  | OK
  | WARNING
  | CRITICAL
deriving DecidableEq, Repr

/-- The volume flag of pipeline_health.py ('NORMAL' / 'LOW_VOLUME'). -/
inductive VolumeStatus where
  | NORMAL
  | LOW_VOLUME
deriving DecidableEq, Repr

/-! Embedding of pipeline_health.py -/

/-- Per-pipeline configuration of pipeline_health.py (PIPELINE_CONFIGS entries;
the SQL-only fields `table`, `date_column`, `extra_where` are irrelevant to the
classifier and omitted). -/
structure PHConfig where
  critical_hours : Int
  warning_hours : Int
  min_daily_records : Nat
  check_after_hour : Nat
deriving DecidableEq, Repr

/-- The row returned by the freshness query of pipeline_health.py /
checkin.py: MAX(date_column) (NULL when the 7-day window is empty),
records_today, hours_stale.  Timestamps are abstracted to `Int`. -/
structure PHRow where
  last_record : Option Int
  records_today : Nat
  hours_stale : Int
deriving DecidableEq, Repr

/-- The dict built by pipeline_health.check_pipeline_health.  The no-data
branch carries no volume_status key, hence the `Option`. -/
structure PHResult where
  pipeline : String
  status : Status
  hours_stale : Int
  records_today : Nat
  last_record : Option Int
  volume_status : Option VolumeStatus
  message : String
deriving DecidableEq, Repr

/-- pipeline_health.check_pipeline_health, lines 92-150.  `result` is the
fetched row (`none` when fetchone returned no row); `current_hour` is
datetime.now().hour. -/
def checkPipelineHealthPH (pipeline_name : String) (config : PHConfig)
    (current_hour : Nat) (result : Option PHRow) : PHResult :=
  match result with
  | none =>
      { pipeline := pipeline_name
        status := Status.CRITICAL
        message := "No data found in last 7 days"
        hours_stale := 999
        records_today := 0
        last_record := none
        volume_status := none }
  | some row =>
    match row.last_record with
    | none =>
        { pipeline := pipeline_name
          status := Status.CRITICAL
          message := "No data found in last 7 days"
          hours_stale := 999
          records_today := 0
          last_record := none
          volume_status := none }
    | some lr =>
      let hours_stale := row.hours_stale
      let records_today := row.records_today
      let status :=
        if hours_stale > config.critical_hours then Status.CRITICAL
        else if hours_stale > config.warning_hours then Status.WARNING
        else Status.OK
      -- lines 132-140: volume_status starts NORMAL and the condition both
      -- flips it to LOW_VOLUME and escalates an OK status to WARNING
      if current_hour ≥ config.check_after_hour ∧
          records_today < config.min_daily_records then
        { pipeline := pipeline_name
          status := if status = Status.OK then Status.WARNING else status
          hours_stale := hours_stale
          records_today := records_today
          last_record := some lr
          volume_status := some VolumeStatus.LOW_VOLUME
          message := toString hours_stale ++ "h since update, " ++
            toString records_today ++ " records today" }
      else
        { pipeline := pipeline_name
          status := status
          hours_stale := hours_stale
          records_today := records_today
          last_record := some lr
          volume_status := some VolumeStatus.NORMAL
          message := toString hours_stale ++ "h since update, " ++
            toString records_today ++ " records today" }

/-! Embedding of checkin.py -/

/-- Per-pipeline configuration of checkin.py; only critical_hours is read by
its check_pipeline_health (min_daily_records is declared but never used). -/
structure CheckinConfig where
  critical_hours : Int
deriving DecidableEq, Repr

/-- The dict built by checkin.check_pipeline_health. -/
structure CheckinResult where
  pipeline : String
  status : Status
  hours_stale : Int
  records_today : Nat
  emoji : String
  message : String
deriving DecidableEq, Repr

/-- checkin.check_pipeline_health, lines 126-175.  The Python warning test is
`hours_stale > critical_hours / 2` with exact (float) division; for integers
this is equivalent to `2 * hours_stale > critical_hours`, which is how it is
written here. -/
def checkPipelineHealthCheckin (pipeline_name : String) (config : CheckinConfig)
    (result : Option PHRow) : CheckinResult :=
  match result with
  | none =>
      { pipeline := pipeline_name
        status := Status.CRITICAL
        message := "No data found in last 7 days"
        hours_stale := 999
        records_today := 0
        emoji := "❌" }
  | some row =>
    match row.last_record with
    | none =>
        { pipeline := pipeline_name
          status := Status.CRITICAL
          message := "No data found in last 7 days"
          hours_stale := 999
          records_today := 0
          emoji := "❌" }
    | some _lr =>
      let hours_stale := row.hours_stale
      let records_today := row.records_today
      if hours_stale > config.critical_hours then
        { pipeline := pipeline_name
          status := Status.CRITICAL
          hours_stale := hours_stale
          records_today := records_today
          emoji := "❌"
          message := toString hours_stale ++ "h old, " ++
            toString records_today ++ " records today" }
      else if 2 * hours_stale > config.critical_hours then
        { pipeline := pipeline_name
          status := Status.WARNING
          hours_stale := hours_stale
          records_today := records_today
          emoji := "⚠️"
          message := toString hours_stale ++ "h old, " ++
            toString records_today ++ " records today" }
      else
        { pipeline := pipeline_name
          status := Status.OK
          hours_stale := hours_stale
          records_today := records_today
          emoji := "✅"
          message := toString hours_stale ++ "h old, " ++
            toString records_today ++ " records today" }

/-! Embedding of daily_summary.py -/

/-- Per-pipeline configuration of daily_summary.py. -/
structure DailyConfig where
  critical_hours : Int
  description : String
deriving DecidableEq, Repr

/-- The row returned by the daily_summary query (two extra COUNT columns). -/
structure DailyRow where
  last_record : Option Int
  records_today : Nat
  records_yesterday : Nat
  hours_stale : Int
  records_last_7_days : Nat
deriving DecidableEq, Repr

/-- The dict built by daily_summary.check_pipeline_health.  The no-data branch
has no records_last_7_days key, hence the `Option`; last_record keeps the raw
timestamp (the strftime formatting is irrelevant to every claim). -/
structure DailyResult where
  pipeline : String
  description : String
  status : Status
  emoji : String
  hours_stale : Int
  records_today : Nat
  records_yesterday : Nat
  records_last_7_days : Option Nat
  trend : String
  last_record : Option Int
deriving DecidableEq, Repr

/-- daily_summary.check_pipeline_health, lines 91-160.  The warning test is
again `hours_stale > critical_hours / 2` with exact division, written
integrally as `2 * hours_stale > critical_hours`. -/
def checkPipelineHealthDaily (pipeline_name : String) (config : DailyConfig)
    (result : Option DailyRow) : DailyResult :=
  match result with
  | none =>
      { pipeline := pipeline_name
        description := config.description
        status := Status.CRITICAL
        emoji := "❌"
        hours_stale := 999
        records_today := 0
        records_yesterday := 0
        records_last_7_days := none
        trend := "📉"
        last_record := none }
  | some row =>
    match row.last_record with
    | none =>
        { pipeline := pipeline_name
          description := config.description
          status := Status.CRITICAL
          emoji := "❌"
          hours_stale := 999
          records_today := 0
          records_yesterday := 0
          records_last_7_days := none
          trend := "📉"
          last_record := none }
    | some lr =>
      let hours_stale := row.hours_stale
      let records_today := row.records_today
      let records_yesterday := row.records_yesterday
      let status :=
        if hours_stale > config.critical_hours then Status.CRITICAL
        else if 2 * hours_stale > config.critical_hours then Status.WARNING
        else Status.OK
      let emoji :=
        if hours_stale > config.critical_hours then "❌"
        else if 2 * hours_stale > config.critical_hours then "⚠️"
        else "✅"
      let trend :=
        if records_yesterday = 0 then "➖"
        else if records_today > records_yesterday then "📈"
        else if records_today < records_yesterday then "📉"
        else "➖"
      { pipeline := pipeline_name
        description := config.description
        status := status
        emoji := emoji
        hours_stale := hours_stale
        records_today := records_today
        records_yesterday := records_yesterday
        records_last_7_days := some row.records_last_7_days
        trend := trend
        last_record := some lr }

/-! Card builders (the pieces the claims are about) -/

/-- critical/warning/ok tallies of checkin.create_google_chat_card
(`sum(1 for r in pipeline_results if r['status'] == ...)`). -/
def criticalCountCheckin (pipeline_results : List CheckinResult) : Nat :=
  pipeline_results.countP (fun r => decide (r.status = Status.CRITICAL))

def warningCountCheckin (pipeline_results : List CheckinResult) : Nat :=
  pipeline_results.countP (fun r => decide (r.status = Status.WARNING))

def okCountCheckin (pipeline_results : List CheckinResult) : Nat :=
  pipeline_results.countP (fun r => decide (r.status = Status.OK))

/-- Overall-status string of checkin.create_google_chat_card, lines 200-209. -/
def overallStatusCheckin (pipeline_results : List CheckinResult) : String :=
  if criticalCountCheckin pipeline_results > 0 then "🔴 CRITICAL"
  else if warningCountCheckin pipeline_results > 0 then "🟡 WARNING"
  else "🟢 ALL OK"

def criticalCountDaily (pipeline_results : List DailyResult) : Nat :=
  pipeline_results.countP (fun r => decide (r.status = Status.CRITICAL))

def warningCountDaily (pipeline_results : List DailyResult) : Nat :=
  pipeline_results.countP (fun r => decide (r.status = Status.WARNING))

/-- Overall-status string of daily_summary.create_google_chat_card,
lines 207-216. -/
def overallStatusDaily (pipeline_results : List DailyResult) : String :=
  if criticalCountDaily pipeline_results > 0 then "🔴 ISSUES DETECTED"
  else if warningCountDaily pipeline_results > 0 then "🟡 WARNINGS"
  else "🟢 ALL SYSTEMS HEALTHY"

/-- The operator line of checkin.create_google_chat_card, lines 217-224.
`operator_count` is `None` outside the morning check-in. -/
def operatorText (operator_count : Option Nat) : String :=
  match operator_count with
  | none => ""
  | some c =>
    if c = 237 then
      "\n✅ *Operators*: " ++ toString c ++ "/237 (expected)"
    else if c ≥ 230 then
      "\n⚠️ *Operators*: " ++ toString c ++ "/237 (slightly off)"
    else
      "\n❌ *Operators*: " ++ toString c ++ "/237 (CRITICAL)"

/-- Which of the three operator markings (lines 219/221/223) the card used;
`absent` when operator_count is None (line 218). The branch conditions are
verbatim those of the source. -/
inductive OperatorMark where
  | expected
  | slightlyOff
  | critical
  | absent
deriving DecidableEq, Repr

def operatorMark (operator_count : Option Nat) : OperatorMark :=
  match operator_count with
  | none => OperatorMark.absent
  | some c =>
    if c = 237 then OperatorMark.expected
    else if c ≥ 230 then OperatorMark.slightlyOff
    else OperatorMark.critical

/-- The line operatorText produces for each marking. -/
def operatorLineOfMark (mark : OperatorMark) (c : Nat) : String :=
  match mark with
  | OperatorMark.expected => "\n✅ *Operators*: " ++ toString c ++ "/237 (expected)"
  | OperatorMark.slightlyOff => "\n⚠️ *Operators*: " ++ toString c ++ "/237 (slightly off)"
  | OperatorMark.critical => "\n❌ *Operators*: " ++ toString c ++ "/237 (CRITICAL)"
  | OperatorMark.absent => ""

/-! Webhook senders -/

/-- Outcome of `requests.post` as seen by the sender: either a response with
an HTTP status code, or a raised exception. -/
inductive HttpOutcome where
  | response (status_code : Nat)
  | exn
deriving DecidableEq, Repr

/-- checkin.send_google_chat_alert, lines 249-266: True on a 200 response,
False on any other status code, False when the post raises. -/
def sendGoogleChatAlertCheckin : HttpOutcome → Bool
  | HttpOutcome.response status_code => status_code == 200
  | HttpOutcome.exn => false

/-- GoogleChatAlert.send_simple_message, lines 212-226 of
alerts/google_chat_alerts.py: same contract. -/
def sendSimpleMessage : HttpOutcome → Bool
  | HttpOutcome.response status_code => status_code == 200
  | HttpOutcome.exn => false

/-! Run orchestration: exit codes and file effects -/

/-- checkin.main, lines 305-316: exit 1 iff any CRITICAL; a WARNING-only run
and an all-OK run both sys.exit(0). -/
def checkinExitCode (pipeline_results : List CheckinResult) : Nat :=
  if criticalCountCheckin pipeline_results > 0 then 1
  else if warningCountCheckin pipeline_results > 0 then 0
  else 0

/-- checkin.main calls send_google_chat_alert(card) and discards its Boolean
result before computing the exit code (lines 302-316). -/
def checkinMainExit (pipeline_results : List CheckinResult)
    (send_outcome : HttpOutcome) : Nat :=
  let _sent := sendGoogleChatAlertCheckin send_outcome
  checkinExitCode pipeline_results

/-- pipeline_health.main line 238: `result['status'] in ['CRITICAL','WARNING']`. -/
def phIssues (all_results : List PHResult) : List PHResult :=
  all_results.filter
    (fun r => decide (r.status = Status.CRITICAL ∨ r.status = Status.WARNING))

/-- pipeline_health.send_alerts, lines 152-194: returns immediately when
`issues` is empty, otherwise appends the alert text to pipeline_alerts.txt. -/
def sendAlertsAppendsFile (issues : List PHResult) : Bool :=
  !issues.isEmpty

/-- Observable outcome of a completed pipeline_health.main run. -/
structure PHRunEffects where
  exit_code : Nat
  success_marker_written : Bool
  alert_file_appended : Bool
deriving DecidableEq, Repr

/-- pipeline_health.main, lines 229-258, for a run whose checks completed:
with issues it calls send_alerts and sys.exit(1); without issues it writes
pipeline_health_last_success.txt and returns (process exit 0). -/
def phMainCompleted (all_results : List PHResult) : PHRunEffects :=
  let issues := phIssues all_results
  if issues.isEmpty then
    { exit_code := 0
      success_marker_written := true
      alert_file_appended := false }
  else
    { exit_code := 1
      success_marker_written := false
      alert_file_appended := sendAlertsAppendsFile issues }

/-- The two except-clauses shared by all three mains: mysql.connector.Error
versus any other Exception. -/
inductive RunErrorKind where
  | dbError
  | otherError
deriving DecidableEq, Repr

/-- Process exit code of pipeline_health.main, lines 224-268. -/
def phRunExit : Except RunErrorKind (List PHResult) → Nat
  | Except.error RunErrorKind.dbError => 2
  | Except.error RunErrorKind.otherError => 3
  | Except.ok all_results => (phMainCompleted all_results).exit_code

/-- Process exit code of checkin.main, lines 281-326. -/
def checkinRunExit : Except RunErrorKind (List CheckinResult) → Nat
  | Except.error RunErrorKind.dbError => 2
  | Except.error RunErrorKind.otherError => 3
  | Except.ok pipeline_results => checkinExitCode pipeline_results

/-- Process exit code of daily_summary.main, lines 276-324: every completed
run reaches the unconditional sys.exit(0) at line 317. -/
def dailyRunExit : Except RunErrorKind (List DailyResult) → Nat
  | Except.error RunErrorKind.dbError => 2
  | Except.error RunErrorKind.otherError => 3
  | Except.ok _ => 0

/-! CLI of checkin.py -/

/-- The `choices` list of the --time argument (checkin.main line 272). -/
def checkinTimeChoices : List String := ["morning", "first_shift", "second_shift"]

inductive ArgError where
  | missingRequiredTime
  | invalidChoice (given : String)
deriving DecidableEq, Repr

/-- argparse semantics of checkin.main lines 271-274: a single --time argument
declared with required=True and the fixed choices list.  `none` models an
invocation that omits --time; argparse then errors out ("the following
arguments are required: --time") instead of accepting the invocation. -/
def parseCheckinArgs : Option String → Except ArgError String
  | none => Except.error ArgError.missingRequiredTime
  | some s =>
    if s ∈ checkinTimeChoices then Except.ok s
    else Except.error (ArgError.invalidChoice s)

/-! Theorems -/

/-- C1: whenever the 7-day window holds a record, each script's classifier
returns CRITICAL if hours_stale > critical_hours, else WARNING if
hours_stale > warning_hours (pipeline_health) or hours_stale >
critical_hours / 2 (checkin and daily_summary), else OK (for
pipeline_health, OK as long as the separate volume escalation does not
fire); and with critical_hours = 24, warning_hours = 12, hours_stale = 13
every variant returns WARNING. -/
theorem staleness_tier_classification :
    (∀ (name : String) (cfg : PHConfig) (hour : Nat) (lr : Int) (rt : Nat) (hs : Int),
      (cfg.critical_hours < hs →
        (checkPipelineHealthPH name cfg hour (some ⟨some lr, rt, hs⟩)).status =
          Status.CRITICAL) ∧
      (hs ≤ cfg.critical_hours → cfg.warning_hours < hs →
        (checkPipelineHealthPH name cfg hour (some ⟨some lr, rt, hs⟩)).status =
          Status.WARNING) ∧
      (hs ≤ cfg.critical_hours → hs ≤ cfg.warning_hours →
        ¬(cfg.check_after_hour ≤ hour ∧ rt < cfg.min_daily_records) →
        (checkPipelineHealthPH name cfg hour (some ⟨some lr, rt, hs⟩)).status =
          Status.OK)) ∧
    (∀ (name : String) (cfg : CheckinConfig) (lr : Int) (rt : Nat) (hs : Int),
      (cfg.critical_hours < hs →
        (checkPipelineHealthCheckin name cfg (some ⟨some lr, rt, hs⟩)).status =
          Status.CRITICAL) ∧
      (hs ≤ cfg.critical_hours → cfg.critical_hours < 2 * hs →
        (checkPipelineHealthCheckin name cfg (some ⟨some lr, rt, hs⟩)).status =
          Status.WARNING) ∧
      (hs ≤ cfg.critical_hours → 2 * hs ≤ cfg.critical_hours →
        (checkPipelineHealthCheckin name cfg (some ⟨some lr, rt, hs⟩)).status =
          Status.OK)) ∧
    (∀ (name : String) (cfg : DailyConfig) (lr : Int) (rt ry : Nat) (hs : Int) (r7 : Nat),
      (cfg.critical_hours < hs →
        (checkPipelineHealthDaily name cfg (some ⟨some lr, rt, ry, hs, r7⟩)).status =
          Status.CRITICAL) ∧
      (hs ≤ cfg.critical_hours → cfg.critical_hours < 2 * hs →
        (checkPipelineHealthDaily name cfg (some ⟨some lr, rt, ry, hs, r7⟩)).status =
          Status.WARNING) ∧
      (hs ≤ cfg.critical_hours → 2 * hs ≤ cfg.critical_hours →
        (checkPipelineHealthDaily name cfg (some ⟨some lr, rt, ry, hs, r7⟩)).status =
          Status.OK)) ∧
    (checkPipelineHealthPH "FactCalls" ⟨24, 12, 1000, 12⟩ 13
        (some ⟨some 0, 500, 13⟩)).status = Status.WARNING ∧
    (checkPipelineHealthCheckin "FactCalls" ⟨24⟩
        (some ⟨some 0, 500, 13⟩)).status = Status.WARNING ∧
    (checkPipelineHealthDaily "FactCalls" ⟨24, "Call records"⟩
        (some ⟨some 0, 500, 500, 13, 3500⟩)).status = Status.WARNING := by
  refine ⟨?_, ?_, ?_, by decide, by decide, by decide⟩
  · intro name cfg hour lr rt hs
    refine ⟨fun h1 => ?_, fun h1 h2 => ?_, fun h1 h2 h3 => ?_⟩ <;>
      · simp only [checkPipelineHealthPH]
        split_ifs <;> first | rfl | omega | simp_all
  · intro name cfg lr rt hs
    refine ⟨fun h1 => ?_, fun h1 h2 => ?_, fun h1 h2 => ?_⟩ <;>
      · simp only [checkPipelineHealthCheckin]
        split_ifs <;> first | rfl | omega
  · intro name cfg lr rt ry hs r7
    refine ⟨fun h1 => ?_, fun h1 h2 => ?_, fun h1 h2 => ?_⟩ <;>
      · simp only [checkPipelineHealthDaily]
        split_ifs <;> first | rfl | omega

/-- Witness for staleness_tier_classification at concrete inputs: 30h stale
against critical 24 is CRITICAL in the hourly monitor, 13h against
critical 24 is WARNING in the check-in variant. -/
theorem staleness_tier_classification_witness :
    (checkPipelineHealthPH "FactCalls" ⟨24, 12, 1000, 12⟩ 8
        (some ⟨some 0, 500, 30⟩)).status = Status.CRITICAL ∧
    (checkPipelineHealthCheckin "FactCalls" ⟨24⟩
        (some ⟨some 0, 500, 13⟩)).status = Status.WARNING :=
  ⟨(staleness_tier_classification.1 "FactCalls" ⟨24, 12, 1000, 12⟩ 8 0 500 30).1
      (by decide),
   (staleness_tier_classification.2.1 "FactCalls" ⟨24⟩ 0 500 13).2.1
      (by decide) (by decide)⟩

/-- C2: when the query yields no row, or a row whose MAX(date_column) is
NULL, both the hourly monitor and the check-in script report CRITICAL with
the sentinel hours_stale = 999, records_today = 0 and the message
"No data found in last 7 days", whatever the thresholds and current hour. -/
theorem no_data_forces_critical :
    (∀ (name : String) (cfg : PHConfig) (hour : Nat),
      (checkPipelineHealthPH name cfg hour none).status = Status.CRITICAL ∧
      (checkPipelineHealthPH name cfg hour none).hours_stale = 999 ∧
      (checkPipelineHealthPH name cfg hour none).records_today = 0 ∧
      (checkPipelineHealthPH name cfg hour none).message =
        "No data found in last 7 days") ∧
    (∀ (name : String) (cfg : PHConfig) (hour : Nat) (rt : Nat) (hs : Int),
      (checkPipelineHealthPH name cfg hour (some ⟨none, rt, hs⟩)).status =
          Status.CRITICAL ∧
      (checkPipelineHealthPH name cfg hour (some ⟨none, rt, hs⟩)).hours_stale = 999 ∧
      (checkPipelineHealthPH name cfg hour (some ⟨none, rt, hs⟩)).records_today = 0 ∧
      (checkPipelineHealthPH name cfg hour (some ⟨none, rt, hs⟩)).message =
        "No data found in last 7 days") ∧
    (∀ (name : String) (cfg : CheckinConfig),
      (checkPipelineHealthCheckin name cfg none).status = Status.CRITICAL ∧
      (checkPipelineHealthCheckin name cfg none).hours_stale = 999 ∧
      (checkPipelineHealthCheckin name cfg none).records_today = 0 ∧
      (checkPipelineHealthCheckin name cfg none).message =
        "No data found in last 7 days") ∧
    (∀ (name : String) (cfg : CheckinConfig) (rt : Nat) (hs : Int),
      (checkPipelineHealthCheckin name cfg (some ⟨none, rt, hs⟩)).status =
          Status.CRITICAL ∧
      (checkPipelineHealthCheckin name cfg (some ⟨none, rt, hs⟩)).hours_stale = 999 ∧
      (checkPipelineHealthCheckin name cfg (some ⟨none, rt, hs⟩)).records_today = 0 ∧
      (checkPipelineHealthCheckin name cfg (some ⟨none, rt, hs⟩)).message =
        "No data found in last 7 days") := by
  refine ⟨fun name cfg hour => ?_, fun name cfg hour rt hs => ?_,
    fun name cfg => ?_, fun name cfg rt hs => ?_⟩ <;>
    exact ⟨rfl, rfl, rfl, rfl⟩

/-- Witness for no_data_forces_critical: an empty window for FactCalls gives
the sentinel CRITICAL result in both scripts. -/
theorem no_data_forces_critical_witness :
    (checkPipelineHealthPH "FactCalls" ⟨24, 12, 1000, 12⟩ 8 none).status =
        Status.CRITICAL ∧
    (checkPipelineHealthCheckin "FactCalls" ⟨24⟩
        (some ⟨none, 0, 0⟩)).hours_stale = 999 :=
  ⟨(no_data_forces_critical.1 "FactCalls" ⟨24, 12, 1000, 12⟩ 8).1,
   (no_data_forces_critical.2.2.2 "FactCalls" ⟨24⟩ 0 0).2.1⟩

/-- C4: in the hourly health monitor, when the staleness tier alone gives OK
and the current hour has reached check_after_hour with records_today below
min_daily_records, the result is escalated to WARNING carrying the LOW_VOLUME
flag; a tier status of WARNING or CRITICAL is kept unchanged. -/
theorem volume_escalates_ok_to_warning :
    ∀ (name : String) (cfg : PHConfig) (hour : Nat) (lr : Int) (rt : Nat) (hs : Int),
      (hs ≤ cfg.critical_hours → hs ≤ cfg.warning_hours →
        cfg.check_after_hour ≤ hour → rt < cfg.min_daily_records →
        (checkPipelineHealthPH name cfg hour (some ⟨some lr, rt, hs⟩)).status =
            Status.WARNING ∧
        (checkPipelineHealthPH name cfg hour (some ⟨some lr, rt, hs⟩)).volume_status =
            some VolumeStatus.LOW_VOLUME) ∧
      (cfg.warning_hours < hs → hs ≤ cfg.critical_hours →
        (checkPipelineHealthPH name cfg hour (some ⟨some lr, rt, hs⟩)).status =
          Status.WARNING) ∧
      (cfg.critical_hours < hs →
        (checkPipelineHealthPH name cfg hour (some ⟨some lr, rt, hs⟩)).status =
          Status.CRITICAL) := by
  intro name cfg hour lr rt hs
  refine ⟨fun h1 h2 h3 h4 => ⟨?_, ?_⟩, fun h1 h2 => ?_, fun h1 => ?_⟩ <;>
    · simp only [checkPipelineHealthPH]
      split_ifs <;> first | rfl | omega | simp_all

/-- Witness for volume_escalates_ok_to_warning: a fresh pipeline (2h stale)
with only 400 of 1000 expected records at 14:00 is escalated to WARNING with
the LOW_VOLUME flag. -/
theorem volume_escalates_ok_to_warning_witness :
    (checkPipelineHealthPH "FactCalls" ⟨24, 12, 1000, 12⟩ 14
        (some ⟨some 0, 400, 2⟩)).status = Status.WARNING ∧
    (checkPipelineHealthPH "FactCalls" ⟨24, 12, 1000, 12⟩ 14
        (some ⟨some 0, 400, 2⟩)).volume_status = some VolumeStatus.LOW_VOLUME :=
  (volume_escalates_ok_to_warning "FactCalls" ⟨24, 12, 1000, 12⟩ 14 0 400 2).1
    (by decide) (by decide) (by decide) (by decide)

/-- C8: the daily-summary trend arrow on existing data is flat whenever
records_yesterday = 0 (even with records_today > 0), the up arrow when
yesterday was positive and today exceeds it, the down arrow when yesterday
was positive and today is below it, and flat when the counts are equal. -/
theorem daily_trend_arrow :
    ∀ (name : String) (cfg : DailyConfig) (lr : Int) (rt ry : Nat) (hs : Int) (r7 : Nat),
      (ry = 0 →
        (checkPipelineHealthDaily name cfg (some ⟨some lr, rt, ry, hs, r7⟩)).trend = "➖") ∧
      (0 < ry → ry < rt →
        (checkPipelineHealthDaily name cfg (some ⟨some lr, rt, ry, hs, r7⟩)).trend = "📈") ∧
      (0 < ry → rt < ry →
        (checkPipelineHealthDaily name cfg (some ⟨some lr, rt, ry, hs, r7⟩)).trend = "📉") ∧
      (rt = ry →
        (checkPipelineHealthDaily name cfg (some ⟨some lr, rt, ry, hs, r7⟩)).trend = "➖") := by
  intro name cfg lr rt ry hs r7
  refine ⟨fun h1 => ?_, fun h1 h2 => ?_, fun h1 h2 => ?_, fun h1 => ?_⟩ <;>
    · simp only [checkPipelineHealthDaily]
      split_ifs <;> first | rfl | omega

/-- Witness for daily_trend_arrow: 100 records yesterday and 0 today is the
down arrow; 0 yesterday and 50 today is still the flat arrow. -/
theorem daily_trend_arrow_witness :
    (checkPipelineHealthDaily "FactCalls" ⟨24, "Call records"⟩
        (some ⟨some 0, 0, 100, 3, 700⟩)).trend = "📉" ∧
    (checkPipelineHealthDaily "FactCalls" ⟨24, "Call records"⟩
        (some ⟨some 0, 50, 0, 3, 700⟩)).trend = "➖" :=
  ⟨(daily_trend_arrow "FactCalls" ⟨24, "Call records"⟩ 0 0 100 3 700).2.2.1
      (by decide) (by decide),
   (daily_trend_arrow "FactCalls" ⟨24, "Call records"⟩ 0 50 0 3 700).1 (by decide)⟩

/-- C5: in both card builders the overall status is the CRITICAL header iff
some result is CRITICAL, the WARNING header iff none is CRITICAL but some is
WARNING, and the all-clear header iff neither occurs — for every list of
results, in particular any list of 5 mixed ones. -/
theorem overall_status_aggregation :
    (∀ rs : List CheckinResult,
      (overallStatusCheckin rs = "🔴 CRITICAL" ↔
        ∃ r ∈ rs, r.status = Status.CRITICAL) ∧
      (overallStatusCheckin rs = "🟡 WARNING" ↔
        (¬∃ r ∈ rs, r.status = Status.CRITICAL) ∧
          ∃ r ∈ rs, r.status = Status.WARNING) ∧
      (overallStatusCheckin rs = "🟢 ALL OK" ↔
        (¬∃ r ∈ rs, r.status = Status.CRITICAL) ∧
          ¬∃ r ∈ rs, r.status = Status.WARNING)) ∧
    (∀ rs : List DailyResult,
      (overallStatusDaily rs = "🔴 ISSUES DETECTED" ↔
        ∃ r ∈ rs, r.status = Status.CRITICAL) ∧
      (overallStatusDaily rs = "🟡 WARNINGS" ↔
        (¬∃ r ∈ rs, r.status = Status.CRITICAL) ∧
          ∃ r ∈ rs, r.status = Status.WARNING) ∧
      (overallStatusDaily rs = "🟢 ALL SYSTEMS HEALTHY" ↔
        (¬∃ r ∈ rs, r.status = Status.CRITICAL) ∧
          ¬∃ r ∈ rs, r.status = Status.WARNING)) := by
  constructor
  · intro rs
    have hc : criticalCountCheckin rs > 0 ↔ ∃ r ∈ rs, r.status = Status.CRITICAL := by
      simp [criticalCountCheckin, List.countP_pos_iff]
    have hw : warningCountCheckin rs > 0 ↔ ∃ r ∈ rs, r.status = Status.WARNING := by
      simp [warningCountCheckin, List.countP_pos_iff]
    simp only [overallStatusCheckin]
    split_ifs with h1 h2
    · exact ⟨⟨fun _ => hc.mp h1, fun _ => rfl⟩,
        ⟨fun h => absurd h (by decide), fun h => absurd (hc.mp h1) h.1⟩,
        ⟨fun h => absurd h (by decide), fun h => absurd (hc.mp h1) h.1⟩⟩
    · exact ⟨⟨fun h => absurd h (by decide), fun h => absurd (hc.mpr h) h1⟩,
        ⟨fun _ => ⟨fun h => h1 (hc.mpr h), hw.mp h2⟩, fun _ => rfl⟩,
        ⟨fun h => absurd h (by decide), fun h => absurd (hw.mp h2) h.2⟩⟩
    · exact ⟨⟨fun h => absurd h (by decide), fun h => absurd (hc.mpr h) h1⟩,
        ⟨fun h => absurd h (by decide), fun h => absurd (hw.mpr h.2) h2⟩,
        ⟨fun _ => ⟨fun h => h1 (hc.mpr h), fun h => h2 (hw.mpr h)⟩, fun _ => rfl⟩⟩
  · intro rs
    have hc : criticalCountDaily rs > 0 ↔ ∃ r ∈ rs, r.status = Status.CRITICAL := by
      simp [criticalCountDaily, List.countP_pos_iff]
    have hw : warningCountDaily rs > 0 ↔ ∃ r ∈ rs, r.status = Status.WARNING := by
      simp [warningCountDaily, List.countP_pos_iff]
    simp only [overallStatusDaily]
    split_ifs with h1 h2
    · exact ⟨⟨fun _ => hc.mp h1, fun _ => rfl⟩,
        ⟨fun h => absurd h (by decide), fun h => absurd (hc.mp h1) h.1⟩,
        ⟨fun h => absurd h (by decide), fun h => absurd (hc.mp h1) h.1⟩⟩
    · exact ⟨⟨fun h => absurd h (by decide), fun h => absurd (hc.mpr h) h1⟩,
        ⟨fun _ => ⟨fun h => h1 (hc.mpr h), hw.mp h2⟩, fun _ => rfl⟩,
        ⟨fun h => absurd h (by decide), fun h => absurd (hw.mp h2) h.2⟩⟩
    · exact ⟨⟨fun h => absurd h (by decide), fun h => absurd (hc.mpr h) h1⟩,
        ⟨fun h => absurd h (by decide), fun h => absurd (hw.mpr h.2) h2⟩,
        ⟨fun _ => ⟨fun h => h1 (hc.mpr h), fun h => h2 (hw.mpr h)⟩, fun _ => rfl⟩⟩

/-- Witness for overall_status_aggregation on a 5-element mixed list: one
WARNING and no CRITICAL among five results yields the WARNING header. -/
theorem overall_status_aggregation_witness :
    overallStatusCheckin
      [⟨"FactCalls", Status.OK, 2, 1500, "✅", "2h old, 1500 records today"⟩,
       ⟨"FactFirstCalls", Status.WARNING, 13, 200, "⚠️", "13h old, 200 records today"⟩,
       ⟨"DimAgentActivity", Status.OK, 5, 40, "✅", "5h old, 40 records today"⟩,
       ⟨"messaging_result", Status.OK, 1, 90, "✅", "1h old, 90 records today"⟩,
       ⟨"pellonia_tickets", Status.OK, 4, 12, "✅", "4h old, 12 records today"⟩] =
      "🟡 WARNING" :=
  ((overall_status_aggregation.1
      [⟨"FactCalls", Status.OK, 2, 1500, "✅", "2h old, 1500 records today"⟩,
       ⟨"FactFirstCalls", Status.WARNING, 13, 200, "⚠️", "13h old, 200 records today"⟩,
       ⟨"DimAgentActivity", Status.OK, 5, 40, "✅", "5h old, 40 records today"⟩,
       ⟨"messaging_result", Status.OK, 1, 90, "✅", "1h old, 90 records today"⟩,
       ⟨"pellonia_tickets", Status.OK, 4, 12, "✅", "4h old, 12 records today"⟩]).2.1).mpr
    (by decide)

/-- C10: the morning card's operator line with a non-None count n is marked
expected iff n = 237, slightly off iff n ≥ 230 and n ≠ 237 (so every n > 237
included), CRITICAL iff n < 230; and the rendered text is exactly the line
of that marking. -/
theorem operator_count_marking :
    ∀ n : Nat,
      (operatorMark (some n) = OperatorMark.expected ↔ n = 237) ∧
      (operatorMark (some n) = OperatorMark.slightlyOff ↔ 230 ≤ n ∧ n ≠ 237) ∧
      (operatorMark (some n) = OperatorMark.critical ↔ n < 230) ∧
      operatorText (some n) = operatorLineOfMark (operatorMark (some n)) n := by
  intro n
  refine ⟨?_, ?_, ?_, ?_⟩ <;>
  · simp only [operatorMark, operatorText, operatorLineOfMark]
    split_ifs <;> first | rfl | simp_all

/-- Witness for operator_count_marking: 240 operators (above the expected
237) is marked slightly off, 229 is marked CRITICAL. -/
theorem operator_count_marking_witness :
    operatorMark (some 240) = OperatorMark.slightlyOff ∧
    operatorMark (some 229) = OperatorMark.critical :=
  ⟨(operator_count_marking 240).2.1.mpr (by decide),
   (operator_count_marking 229).2.2.1.mpr (by decide)⟩

/-- C6: both webhook senders return true exactly on an HTTP 200 response and
false on any other status code or on a raised exception (they are total, so
nothing propagates to the caller); and the check-in run's exit code is the
same whatever the send outcome was. -/
theorem webhook_send_contract :
    (∀ o : HttpOutcome, sendGoogleChatAlertCheckin o = true ↔
      o = HttpOutcome.response 200) ∧
    (∀ o : HttpOutcome, sendSimpleMessage o = true ↔
      o = HttpOutcome.response 200) ∧
    (∀ (rs : List CheckinResult) (o o' : HttpOutcome),
      checkinMainExit rs o = checkinMainExit rs o') := by
  refine ⟨fun o => ?_, fun o => ?_, fun rs o o' => rfl⟩ <;>
    · cases o with
      | response code =>
          simp [sendGoogleChatAlertCheckin, sendSimpleMessage, Nat.beq_eq]
      | exn => simp [sendGoogleChatAlertCheckin, sendSimpleMessage]

/-- Witness for webhook_send_contract: a 404 response makes the check-in
sender return false while the run with one OK pipeline still exits as the
health alone dictates. -/
theorem webhook_send_contract_witness :
    ¬sendGoogleChatAlertCheckin (HttpOutcome.response 404) = true ∧
    checkinMainExit [⟨"FactCalls", Status.OK, 2, 1500, "✅", "m"⟩]
        (HttpOutcome.response 404) =
      checkinMainExit [⟨"FactCalls", Status.OK, 2, 1500, "✅", "m"⟩]
        (HttpOutcome.response 200) :=
  ⟨fun h => by
      have := (webhook_send_contract.1 (HttpOutcome.response 404)).mp h
      simp at this,
   webhook_send_contract.2.2 [⟨"FactCalls", Status.OK, 2, 1500, "✅", "m"⟩]
     (HttpOutcome.response 404) (HttpOutcome.response 200)⟩

/-- C3 counterexample: a completed check-in run whose only pipeline is
WARNING exits 0, not 1 as the claim requires; likewise a completed
daily-summary run containing a CRITICAL result exits 0. -/
theorem exit_code_warning_counterexample :
    checkinRunExit (Except.ok
        [⟨"FactCalls", Status.WARNING, 13, 500, "⚠️", "13h old, 500 records today"⟩]) = 0 ∧
    checkinRunExit (Except.ok
        [⟨"FactCalls", Status.WARNING, 13, 500, "⚠️", "13h old, 500 records today"⟩]) ≠ 1 ∧
    dailyRunExit (Except.ok
        [⟨"FactCalls", "Call records", Status.CRITICAL, "❌", 999, 0, 0, none, "📉", none⟩]) = 0 := by
  refine ⟨by decide, by decide, rfl⟩

/-- C3 as amended: database errors exit 2 and unexpected errors exit 3 in all
three scripts; the hourly monitor exits 1 iff some result is WARNING or
CRITICAL and 0 iff all are OK; the check-in script exits 1 iff some result
is CRITICAL and 0 otherwise (so WARNING-only runs exit 0); the daily summary
always exits 0 when its checks complete. -/
theorem exit_code_encoding :
    (∀ rs : List PHResult,
      (phRunExit (Except.ok rs) = 1 ↔
        ∃ r ∈ rs, r.status = Status.CRITICAL ∨ r.status = Status.WARNING) ∧
      (phRunExit (Except.ok rs) = 0 ↔
        ∀ r ∈ rs, ¬(r.status = Status.CRITICAL ∨ r.status = Status.WARNING))) ∧
    (∀ rs : List CheckinResult,
      (checkinRunExit (Except.ok rs) = 1 ↔ ∃ r ∈ rs, r.status = Status.CRITICAL) ∧
      (checkinRunExit (Except.ok rs) = 0 ↔ ∀ r ∈ rs, ¬r.status = Status.CRITICAL)) ∧
    (∀ rs : List DailyResult, dailyRunExit (Except.ok rs) = 0) ∧
    phRunExit (Except.error RunErrorKind.dbError) = 2 ∧
    checkinRunExit (Except.error RunErrorKind.dbError) = 2 ∧
    dailyRunExit (Except.error RunErrorKind.dbError) = 2 ∧
    phRunExit (Except.error RunErrorKind.otherError) = 3 ∧
    checkinRunExit (Except.error RunErrorKind.otherError) = 3 ∧
    dailyRunExit (Except.error RunErrorKind.otherError) = 3 := by
  refine ⟨?_, ?_, fun rs => rfl, rfl, rfl, rfl, rfl, rfl, rfl⟩
  · intro rs
    have hiss : (phIssues rs).isEmpty = true ↔
        ∀ r ∈ rs, ¬(r.status = Status.CRITICAL ∨ r.status = Status.WARNING) := by
      simp [phIssues, List.isEmpty_iff, List.filter_eq_nil_iff]
    have hex : ¬(phIssues rs).isEmpty = true ↔
        ∃ r ∈ rs, r.status = Status.CRITICAL ∨ r.status = Status.WARNING := by
      rw [hiss]
      push_neg
      simp
    simp only [phRunExit, phMainCompleted]
    split_ifs with h
    · exact ⟨⟨fun h01 => absurd h01 (by decide),
          fun hex' => hex'.elim fun r hrr => absurd hrr.2 (hiss.mp h r hrr.1)⟩,
        ⟨fun _ => hiss.mp h, fun _ => rfl⟩⟩
    · exact ⟨⟨fun _ => hex.mp h, fun _ => rfl⟩,
        ⟨fun h10 => absurd h10 (by decide), fun hall => absurd (hiss.mpr hall) h⟩⟩
  · intro rs
    have hc : criticalCountCheckin rs > 0 ↔ ∃ r ∈ rs, r.status = Status.CRITICAL := by
      simp [criticalCountCheckin, List.countP_pos_iff]
    simp only [checkinRunExit, checkinExitCode]
    split_ifs with h1 h2
    · exact ⟨⟨fun _ => hc.mp h1, fun _ => rfl⟩,
        ⟨fun h10 => absurd h10 (by decide),
          fun hall => (hc.mp h1).elim fun r hrr => absurd hrr.2 (hall r hrr.1)⟩⟩
    · exact ⟨⟨fun h01 => absurd h01 (by decide), fun hex' => absurd (hc.mpr hex') h1⟩,
        ⟨fun _ => fun r hr hst => h1 (hc.mpr ⟨r, hr, hst⟩), fun _ => rfl⟩⟩
    · exact ⟨⟨fun h01 => absurd h01 (by decide), fun hex' => absurd (hc.mpr hex') h1⟩,
        ⟨fun _ => fun r hr hst => h1 (hc.mpr ⟨r, hr, hst⟩), fun _ => rfl⟩⟩

/-- Witness for exit_code_encoding: a run with one CRITICAL check-in result
exits 1, a run whose only hourly result is WARNING exits 1. -/
theorem exit_code_encoding_witness :
    checkinRunExit (Except.ok
        [⟨"FactCalls", Status.CRITICAL, 999, 0, "❌", "No data found in last 7 days"⟩]) = 1 ∧
    phRunExit (Except.ok
        [⟨"FactCalls", Status.WARNING, 13, 500, some 0, some VolumeStatus.NORMAL,
          "13h since update, 500 records today"⟩]) = 1 :=
  ⟨((exit_code_encoding.2.1
      [⟨"FactCalls", Status.CRITICAL, 999, 0, "❌", "No data found in last 7 days"⟩]).1).mpr
      (by decide),
   ((exit_code_encoding.1
      [⟨"FactCalls", Status.WARNING, 13, 500, some 0, some VolumeStatus.NORMAL,
        "13h since update, 500 records today"⟩]).1).mpr
      (by decide)⟩

/-- C9: a completed hourly-monitor run writes the success-marker file and
leaves the alert file alone exactly when no result is WARNING or CRITICAL;
with at least one such result the alert file is appended and the marker is
not written. -/
theorem success_marker_vs_alert_file :
    ∀ rs : List PHResult,
      ((phMainCompleted rs).success_marker_written = true ↔
        ∀ r ∈ rs, ¬(r.status = Status.CRITICAL ∨ r.status = Status.WARNING)) ∧
      ((phMainCompleted rs).alert_file_appended = true ↔
        ∃ r ∈ rs, r.status = Status.CRITICAL ∨ r.status = Status.WARNING) := by
  intro rs
  have hiss : (phIssues rs).isEmpty = true ↔
      ∀ r ∈ rs, ¬(r.status = Status.CRITICAL ∨ r.status = Status.WARNING) := by
    simp [phIssues, List.isEmpty_iff, List.filter_eq_nil_iff]
  have hex : ¬(phIssues rs).isEmpty = true ↔
      ∃ r ∈ rs, r.status = Status.CRITICAL ∨ r.status = Status.WARNING := by
    rw [hiss]
    push_neg
    simp
  simp only [phMainCompleted]
  split_ifs with h
  · exact ⟨⟨fun _ => hiss.mp h, fun _ => rfl⟩,
      ⟨fun hf => absurd hf (by decide), fun hex' => absurd h (hex.mpr hex')⟩⟩
  · refine ⟨⟨fun hf => absurd hf (by decide), fun hall => absurd (hiss.mpr hall) h⟩, ?_⟩
    have hf : (phIssues rs).isEmpty = false := by
      revert h
      cases (phIssues rs).isEmpty <;> simp
    show (!(phIssues rs).isEmpty) = true ↔ _
    rw [hf]
    exact ⟨fun _ => hex.mp h, fun _ => rfl⟩

/-- Witness for success_marker_vs_alert_file: an all-OK run writes the marker
without touching the alert file; a run with one WARNING appends the alert
file without writing the marker. -/
theorem success_marker_vs_alert_file_witness :
    (phMainCompleted
      [⟨"FactCalls", Status.OK, 2, 1500, some 0, some VolumeStatus.NORMAL,
        "2h since update, 1500 records today"⟩]).success_marker_written = true ∧
    (phMainCompleted
      [⟨"FactCalls", Status.WARNING, 13, 500, some 0, some VolumeStatus.NORMAL,
        "13h since update, 500 records today"⟩]).alert_file_appended = true :=
  ⟨((success_marker_vs_alert_file
      [⟨"FactCalls", Status.OK, 2, 1500, some 0, some VolumeStatus.NORMAL,
        "2h since update, 1500 records today"⟩]).1).mpr (by decide),
   ((success_marker_vs_alert_file
      [⟨"FactCalls", Status.WARNING, 13, 500, some 0, some VolumeStatus.NORMAL,
        "13h since update, 500 records today"⟩]).2).mpr (by decide)⟩

/-- C7 counterexample: the --time argument of checkin.py is declared with
required=True, so an invocation that omits it is rejected by argparse, not
accepted as the claim states. -/
theorem cli_time_argument_counterexample :
    parseCheckinArgs none = Except.error ArgError.missingRequiredTime := rfl

/-- C7 as amended: the check-in script takes a single required --time
argument whose value must come from the fixed enumeration
morning / first_shift / second_shift (any value in the enumeration is
accepted, anything else or an omitted argument is an error); the other
scripts parse no arguments. -/
theorem cli_time_argument_required :
    (∀ s : String, parseCheckinArgs (some s) = Except.ok s ↔ s ∈ checkinTimeChoices) ∧
    parseCheckinArgs none = Except.error ArgError.missingRequiredTime ∧
    checkinTimeChoices = ["morning", "first_shift", "second_shift"] := by
  refine ⟨fun s => ?_, rfl, rfl⟩
  simp only [parseCheckinArgs]
  split_ifs with h
  · exact ⟨fun _ => h, fun _ => rfl⟩
  · exact ⟨fun heq => absurd heq (by simp), fun hmem => absurd hmem h⟩

/-- Witness for cli_time_argument_required: the value morning is accepted. -/
theorem cli_time_argument_required_witness :
    parseCheckinArgs (some "morning") = Except.ok "morning" :=
  (cli_time_argument_required.1 "morning").mpr (by decide)

end Alertacall
